import Mathlib

/-!
Shallow embedding of the 20ft client session core (tfnz/location.py and
tfnz/volume.py): path normalisation and the mount-conflict check, node
ranking, the session registries, and the push-event handlers, together
with theorems about them.
-/

namespace Tfnz

/-- The empty string, named so that string literals sit after an operator. -/
def emptyStr : String := ""

/-- A single slash. -/
def oneSlash : String := "/"

/-- A double slash (the special posix root). -/
def twoSlash : String := "//"

/-- A triple slash. -/
def threeSlash : String := "///"

/-- A single dot. -/
def dotStr : String := "."

/-- Python str.split on the slash separator, as posixpath.normpath performs
with path.split sep: the empty string yields one empty component and every
slash starts a new component. -/
def splitSlash : List Char → List (List Char)
  | [] => [[]]
  | c :: rest =>
    if c = '/' then [] :: splitSlash rest
    else
      match splitSlash rest with
      | comp :: comps => (c :: comp) :: comps
      | [] => [[c]]

/-- The component loop of posixpath.normpath: empty and single-dot components
are dropped; a dot-dot component pops the previously kept component, except
when the path is relative with nothing kept yet, or the previous component is
itself a dot-dot (then the dot-dot is kept), or the path is absolute with
nothing kept (then the dot-dot is discarded).  acc holds kept components in
reverse order. -/
def normComps (initialSlashes : Bool) (acc : List (List Char)) :
    List (List Char) → List (List Char)
  | [] => acc.reverse
  | comp :: rest =>
    if comp = [] ∨ comp = ['.'] then normComps initialSlashes acc rest
    else if comp ≠ ['.', '.'] ∨ (initialSlashes = false ∧ acc = []) ∨
        acc.head? = some ['.', '.'] then
      normComps initialSlashes (comp :: acc) rest
    else if acc ≠ [] then normComps initialSlashes acc.tail rest
    else normComps initialSlashes acc rest

/-- Glue components back together with single slashes (str.join). -/
def joinSlash : List (List Char) → List Char
  | [] => []
  | [comp] => comp
  | comp :: comp2 :: rest => comp ++ '/' :: joinSlash (comp2 :: rest)

/-- Python str.startswith, at the character level. -/
def startswith (s t : String) : Bool := decide (s.data.take t.length = t.data)

/-- Python str.endswith, at the character level. -/
def endswith (s t : String) : Bool := t.data.reverse.isPrefixOf s.data.reverse

/-- posixpath.normpath: collapse empty and dot components, resolve dot-dot
components lexically, preserve the special double-slash root, and return a
dot for an empty result. -/
def normpath (path : String) : String :=
  if path = emptyStr then dotStr else
  let slashes : Nat :=
    if startswith path twoSlash = true ∧ startswith path threeSlash = false then 2
    else if startswith path oneSlash = true then 1 else 0
  let comps := splitSlash path.data
  let kept := normComps (startswith path oneSlash) [] comps
  let joined := List.replicate slashes '/' ++ joinSlash kept
  if joined = [] then dotStr else String.mk joined

/-- posixpath.join of the working directory and a possibly relative path, the
combination os.path.abspath performs before normalising. -/
def joincwd (cwd path : String) : String :=
  if startswith path oneSlash then path
  else if cwd = emptyStr ∨ endswith cwd oneSlash then String.mk (cwd.data ++ path.data)
  else String.mk (cwd.data ++ '/' :: path.data)

/-- os.path.abspath: join the process working directory onto the path when it
is relative, then normalise.  The working directory cwd is passed explicitly
because os.path.abspath reads it from ambient process state. -/
def abspath (cwd path : String) : String := normpath (joincwd cwd path)

/-- The loop of Volume.trees_intersect: scan the already-claimed mount paths
and return, for the first claimed path whose absolute form and the absolute
proposed path p stand in a character-level containment relation, the pair
(longer path, shorter path).  The length comparison and the slice comparison
mirror the python len and subscript operations character for character. -/
def treesIntersectLoop (cwd : String) (p : String) : List String → Option (String × String)
  | [] => none
  | cur :: rest =>
    if (abspath cwd cur).length < p.length then
      if p.data.take (abspath cwd cur).length = (abspath cwd cur).data then
        some (p, abspath cwd cur)
      else treesIntersectLoop cwd p rest
    else
      if (abspath cwd cur).data.take p.length = p.data then
        some (abspath cwd cur, p)
      else treesIntersectLoop cwd p rest

/-- Volume.trees_intersect from tfnz/volume.py: ensure the proposed directory
is neither a subdirectory nor a superdirectory of any existing directory,
after normalising every path with os.path.abspath; returns the conflicting
pair (longer, shorter) or none. -/
def trees_intersect (cwd : String) (current : List String) (proposed : String) :
    Option (String × String) :=
  treesIntersectLoop cwd (abspath cwd proposed) current

/-- The working directory used to instantiate the specification's worked
examples; every example path is already absolute, so its value is irrelevant. -/
def rootStr : String := "/"

/-- The example path /a/b. -/
def pathAB : String := "/a/b"

/-- The example path /a/b/c. -/
def pathABC : String := "/a/b/c"

/-- The example path /a/bc, a raw string extension of /a/b that is not a
subdirectory of it. -/
def pathABc : String := "/a/bc"

/-- The example path /x. -/
def pathX : String := "/x"

/-- The example path /y. -/
def pathY : String := "/y"

/-- Taking the first a.length characters of b yields a exactly when a is a
character-level leading segment of b. -/
theorem take_length_eq_iff {a b : List Char} :
    b.take a.length = a ↔ ∃ t, a ++ t = b := by
  constructor
  · intro h
    exact List.prefix_iff_eq_take.mpr h.symm
  · rintro ⟨t, rfl⟩
    exact List.take_left a t

/-- String version of take_length_eq_iff: the slice comparison performed by
trees_intersect succeeds exactly when one string extends the other. -/
theorem take_length_eq_iff_str {a b : String} :
    b.data.take a.length = a.data ↔ ∃ t : String, a ++ t = b := by
  rw [← String.length_data, take_length_eq_iff]
  constructor
  · rintro ⟨t, ht⟩
    exact ⟨String.mk t, String.ext (by simpa using ht)⟩
  · rintro ⟨t, rfl⟩
    exact ⟨t.data, by simp⟩

/-- The per-element test of the trees_intersect loop holds exactly when the
two absolute paths are containment related as raw character strings. -/
theorem step_iff (c p : String) :
    (if c.length < p.length then p.data.take c.length = c.data
     else c.data.take p.length = p.data) ↔
    ((∃ t : String, p ++ t = c) ∨ (∃ t : String, c ++ t = p)) := by
  by_cases hlen : c.length < p.length
  · rw [if_pos hlen, take_length_eq_iff_str]
    constructor
    · exact Or.inr
    · rintro (⟨t, rfl⟩ | h)
      · exfalso
        rw [String.length_append] at hlen
        omega
      · exact h
  · rw [if_neg hlen, take_length_eq_iff_str]
    constructor
    · exact Or.inl
    · rintro (h | ⟨t, rfl⟩)
      · exact h
      · have ht0 : t.length = 0 := by
          rw [String.length_append] at hlen
          omega
        have htd : t.data = [] := by
          rw [← String.length_data, List.length_eq_zero] at ht0
          exact ht0
        have hct : c ++ t = c := String.ext (by simp [htd])
        exact ⟨t, by simp only [hct]⟩

/-- Unfolding step for the trees_intersect loop on a nonempty list of claimed
paths. -/
theorem treesIntersectLoop_cons_ne_none (cwd p cur : String) (rest : List String) :
    treesIntersectLoop cwd p (cur :: rest) ≠ none ↔
      ((if (abspath cwd cur).length < p.length
        then p.data.take (abspath cwd cur).length = (abspath cwd cur).data
        else (abspath cwd cur).data.take p.length = p.data) ∨
       treesIntersectLoop cwd p rest ≠ none) := by
  simp only [treesIntersectLoop]
  by_cases hlen : (abspath cwd cur).length < p.length
  · by_cases ht : p.data.take (abspath cwd cur).length = (abspath cwd cur).data
    · simp [hlen, ht]
    · simp [hlen, ht]
  · by_cases ht : (abspath cwd cur).data.take p.length = p.data
    · simp [hlen, ht]
    · simp [hlen, ht]

/-- trees_intersect reports a conflict exactly when, after normalising every
path to absolute form, some already-claimed path and the proposed path are
containment related as character strings (equality being the degenerate case
of an empty extension). -/
theorem trees_intersect_ne_none_iff (cwd : String) (current : List String)
    (proposed : String) :
    trees_intersect cwd current proposed ≠ none ↔
      ∃ cur ∈ current,
        (∃ t : String, abspath cwd proposed ++ t = abspath cwd cur) ∨
        (∃ t : String, abspath cwd cur ++ t = abspath cwd proposed) := by
  unfold trees_intersect
  induction current with
  | nil => simp [treesIntersectLoop]
  | cons cur rest ih =>
    rw [treesIntersectLoop_cons_ne_none, step_iff, ih]
    simp only [List.mem_cons, exists_eq_or_imp]

/-- C1: the mount conflict check trees_intersect returns a conflicting pair
if and only if, after normalising all paths to absolute form, the proposed
path is a leading segment of an existing path, an existing path is a leading
segment of the proposed path, or they are equal (the degenerate case of an
empty extension on either side); moreover on the specification's worked
examples it returns no conflict for the empty set with /a/b, the conflict
pair (/a/b/c, /a/b) both for existing /a/b with proposed /a/b/c and for
existing /a/b/c with proposed /a/b, and no conflict for existing /x with
proposed /y. -/
theorem mount_conflict_check_spec :
    (∀ (cwd : String) (current : List String) (proposed : String),
      trees_intersect cwd current proposed ≠ none ↔
        ∃ cur ∈ current,
          (∃ t : String, abspath cwd proposed ++ t = abspath cwd cur) ∨
          (∃ t : String, abspath cwd cur ++ t = abspath cwd proposed)) ∧
    trees_intersect rootStr [] pathAB = none ∧
    trees_intersect rootStr [pathAB] pathABC = some (pathABC, pathAB) ∧
    trees_intersect rootStr [pathABC] pathAB = some (pathABC, pathAB) ∧
    trees_intersect rootStr [pathX] pathY = none :=
  ⟨trees_intersect_ne_none_iff, by decide, by decide, by decide, by decide⟩

/-- Witness for C1: the general characterisation applied at the concrete
input of an existing /a/b and a proposed /a/b/c. -/
theorem mount_conflict_check_spec_witness :
    trees_intersect rootStr [pathAB] pathABC ≠ none := by
  apply (mount_conflict_check_spec.1 rootStr [pathAB] pathABC).mpr
  exact ⟨pathAB, List.mem_cons_self _ _, Or.inr ⟨String.mk ['/', 'c'], by decide⟩⟩

/-- C10: the conflict check compares normalised paths by raw character
containment with no directory-boundary requirement: whenever one absolute
path extends the other as a plain string the check reports a conflict, and in
particular the claimed path /a/b conflicts with the proposed path /a/bc even
though neither directory contains the other. -/
theorem mount_conflict_raw_string_containment :
    (∀ (cwd cur proposed : String),
      abspath cwd cur ≠ abspath cwd proposed →
      ((∃ t : String, abspath cwd cur ++ t = abspath cwd proposed) ∨
       (∃ t : String, abspath cwd proposed ++ t = abspath cwd cur)) →
      trees_intersect cwd [cur] proposed ≠ none) ∧
    trees_intersect rootStr [pathAB] pathABc = some (pathABc, pathAB) := by
  refine ⟨?_, by decide⟩
  intro cwd cur proposed _ hcont
  rw [trees_intersect_ne_none_iff]
  refine ⟨cur, List.mem_cons_self cur [], ?_⟩
  exact hcont.symm

/-- Witness for C10 at the concrete input: the claimed path /a/b and the
proposed path /a/bc, whose absolute forms are distinct but character-level
containment related. -/
theorem mount_conflict_raw_string_containment_witness :
    trees_intersect rootStr [pathAB] pathABc ≠ none := by
  apply mount_conflict_raw_string_containment.1 rootStr pathAB pathABc (by decide)
  exact Or.inl ⟨String.mk ['c'], by decide⟩

/-! ## The session data model

Shallow embedding of the Location object of tfnz/location.py.  Python dicts
are modelled as insertion-ordered association lists with unique keys; the
wire connection is modelled by a Boolean liveness flag (self.conn is None
after disconnection) plus an explicit list of emitted side effects; clock
readings (time.time) are passed in explicitly as rationals.  Attributes of
the source object that no claimed operation reads or writes (the location
string, the connection internals, self.domains) are omitted. -/

/-- A node as ranked_nodes reads it: an identity and the two numeric entries
of its stats mapping that the ranking code consults. -/
structure Node where
  id : String
  cpu : Int
  memory : Int
deriving DecidableEq, Repr

/-- The RankBias enumeration of tfnz/location.py. -/
inductive RankBias where
  | cpu
  | memory
deriving DecidableEq, Repr

/-- A volume handle: server-assigned uuid and optional tag. -/
structure Volume where
  uuid : String
  tag : Option String
deriving DecidableEq, Repr

/-- A tunnel as built by Tunnel(conn, node, container, port, localport,
bind): the locally generated uuid, the owning container, the remote and
local ports and the optional bind address. -/
structure Tunnel where
  uuid : String
  container : String
  port : Nat
  localport : Nat
  bind : Option String
deriving DecidableEq, Repr

/-- A web endpoint: its domain and the clusters currently published on it
(the values of its clusters dict). -/
structure Endpoint where
  domain : String
  clusters : List String
deriving DecidableEq, Repr

/-- Python error values raised by the embedded operations. -/
inductive Err where
  | valueError (msg : String)
  | keyError
  | notFound (msg : String)
  | remoteError
deriving DecidableEq, Repr

deriving instance DecidableEq for Except

/-- Observable side effects of the embedded operations: remote commands,
fire-and-forget sends, resource teardown and event forwarding. -/
inductive Effect where
  | unpublish (domain cluster : String)
  | tunnelDestroyed (uuid : String)
  | connClosed
  | sendBlocking (cmd arg : String)
  | send (cmd : String)
  | forwardFromProxy (uuid : String)
  | forwardCloseProxy (uuid : String)
  | logDebug (msg : String)
deriving DecidableEq, Repr

/-- The mutable state of a Location session: the liveness of self.conn, the
user public key, the four registries and the heartbeat timestamp. -/
structure LocationState where
  conn : Bool
  user_pk : String
  nodes : List (String × Node)
  volumes : List Volume
  tunnels : List (String × Tunnel)
  endpoints : List (String × Endpoint)
  last_heartbeat : ℚ
deriving DecidableEq, Repr

/-- Lookup in an insertion-ordered dict modelled as an association list. -/
def dictLookup (k : String) (d : List (String × β)) : Option β :=
  (d.find? (fun e => e.1 == k)).map (fun e => e.2)

/-- Python dict assignment d[k] = v: update in place when the key exists,
append at the end otherwise (insertion order preserved). -/
def dictInsert (k : String) (v : β) (d : List (String × β)) : List (String × β) :=
  if d.any (fun e => e.1 == k) then
    d.map (fun e => if e.1 == k then (k, v) else e)
  else d ++ [(k, v)]

/-- Python del d[k]: drop the binding of k. -/
def dictDelete (k : String) (d : List (String × β)) : List (String × β) :=
  d.filter (fun e => e.1 != k)

/-- The message of the ValueError raised by ranked_nodes on an empty node
set. -/
def noNodesMsg : String := "The location has no nodes"

/-- The message of the ValueError raised by _destroy_tunnel on an ownership
mismatch. -/
def wrongContainerMsg : String :=
  "Tried to destroy a tunnel actually connected to a different container"

/-- The message of the ValueError raised by endpoint_for when no domain
matches. -/
def noEndpointMsg : String := "There is no endpoint capable of serving: "

/-- The debug message logged when from_proxy hits an unknown tunnel uuid. -/
def fromProxyClosedMsg : String := "Data arrived from a proxy we already closed"

/-- The debug message logged when close_proxy hits an unknown tunnel uuid. -/
def closeProxyClosedMsg : String := "Asked to close a proxy that we already closed"

/-- The destroy_volume command name. -/
def destroyVolumeCmd : String := "destroy_volume"

/-- The heartbeat command name. -/
def heartbeatCmd : String := "heartbeat"

/-- The message of the NotFound failure of the spec-modelled
TaggedCollection.remove. -/
def volumeUnknownMsg : String := "volume is not known to this session"

/-- The stat a given bias ranks by. -/
def statKey (bias : RankBias) (n : Node) : Int :=
  match bias with
  | .cpu => n.cpu
  | .memory => n.memory

/-- Location.ranked_nodes: take the node registry values in insertion order;
raise ValueError when there are none; otherwise return them sorted by the
requested stat, descending, with Python's stable sort (reverse=True keeps
equal-key elements in their original relative order, which is what a stable
merge sort under the flipped comparison computes). -/
def ranked_nodes (s : LocationState) (bias : RankBias) : Except Err (List Node) :=
  let nodes := s.nodes.map (fun e => e.2)
  if nodes.length = 0 then .error (.valueError noNodesMsg)
  else
    match bias with
    | .cpu => .ok (nodes.mergeSort (fun a b => decide (b.cpu ≤ a.cpu)))
    | .memory => .ok (nodes.mergeSort (fun a b => decide (b.memory ≤ a.memory)))

/-- Location.disconnect: a no-op when self.conn is already None; otherwise
unpublish every cluster of every endpoint, clear the endpoints, destroy every
tunnel, clear the tunnels, close the connection, null the connection handle
and clear the nodes.  The volumes registry is not touched. -/
def disconnect (s : LocationState) : LocationState × List Effect :=
  if s.conn = false then (s, [])
  else
    ({ s with endpoints := [], tunnels := [], conn := false, nodes := [] },
      (s.endpoints.map (fun e =>
        e.2.clusters.map (fun c => Effect.unpublish e.2.domain c))).flatten
      ++ s.tunnels.map (fun t => Effect.tunnelDestroyed t.2.uuid)
      ++ [Effect.connClosed])

/-- Location._heartbeat: a no-op until 60 seconds have elapsed since the
previous heartbeat, then a fire-and-forget send and a timestamp reset.  The
clock reading now stands for time.time() at this idle tick. -/
def heartbeat (now : ℚ) (s : LocationState) : LocationState × List Effect :=
  if now - s.last_heartbeat < 60 then (s, [])
  else ({ s with last_heartbeat := now }, [Effect.send heartbeatCmd])

/-- A run of idle ticks: fold heartbeat over the successive clock readings,
collecting the emitted effects. -/
def runHeartbeats (s : LocationState) : List ℚ → LocationState × List Effect
  | [] => (s, [])
  | t :: rest =>
    let step := heartbeat t s
    let done := runHeartbeats step.1 rest
    (done.1, step.2 ++ done.2)

/-- Location.destroy_volume: issue the blocking destroy_volume command, then
remove the volume from the registry.  remoteOk models whether the remote end
acknowledges the blocking command (its failure propagates as remoteError).
Modelled from the spec: TaggedCollection and its remove method live in
tfnz/__init__.py, which is not part of the sources; per the spec the
registry removal of a volume not known to this session fails with a
NotFound-style error and removes nothing. -/
def destroy_volume (s : LocationState) (volume : Volume) (remoteOk : Bool) :
    Except Err Unit × LocationState × List Effect :=
  let effects := [Effect.sendBlocking destroyVolumeCmd volume.uuid]
  if remoteOk = false then (.error .remoteError, s, effects)
  else if volume ∈ s.volumes then
    (.ok (), { s with volumes := s.volumes.erase volume }, effects)
  else (.error (.notFound volumeUnknownMsg), s, effects)

/-- Trace events of Location._tunnel_onto, in execution order. -/
inductive TunnelEvent where
  | waitReady (container : String)
  | registered (uuid : String)
  | connectAttempt (uuid : String)
deriving DecidableEq, Repr

/-- Location._tunnel_onto: wait for the container to be ready, build the
tunnel object with a freshly generated uuid (passed in explicitly, as the
uuid4 call lives in the Tunnel constructor outside the sources), register it
in the tunnels dict, and only then attempt the network connection.
connectResult models the outcome of tunnel.connect(): on error the exception
propagates to the caller, and the source performs no cleanup of the
registered tunnel. -/
def tunnel_onto (s : LocationState) (container : String) (port localport : Nat)
    (bind : Option String) (uuid : String) (connectResult : Except Err Unit) :
    Except Err Tunnel × LocationState × List TunnelEvent :=
  let tunnel : Tunnel :=
    { uuid := uuid, container := container, port := port,
      localport := localport, bind := bind }
  let s1 := { s with tunnels := dictInsert uuid tunnel s.tunnels }
  let trace := [TunnelEvent.waitReady container, TunnelEvent.registered uuid,
    TunnelEvent.connectAttempt uuid]
  match connectResult with
  | .ok _ => (.ok tunnel, s1, trace)
  | .error e => (.error e, s1, trace)

/-- The body shared by both paths of Location._destroy_tunnel once the guard
has passed: destroy the tunnel, then delete it from the dict (a deletion of
an absent key raises KeyError, after the destroy has already happened). -/
def destroyTunnelBody (s : LocationState) (tunnel : Tunnel) :
    Except Err Unit × LocationState × List Effect :=
  if (dictLookup tunnel.uuid s.tunnels).isSome then
    (.ok (), { s with tunnels := dictDelete tunnel.uuid s.tunnels },
      [Effect.tunnelDestroyed tunnel.uuid])
  else (.error .keyError, s, [Effect.tunnelDestroyed tunnel.uuid])

/-- Location._destroy_tunnel: when a container guard is supplied and the
tunnel belongs to a different container, raise ValueError without touching
anything; otherwise destroy the tunnel and remove it from the registry. -/
def destroy_tunnel (s : LocationState) (tunnel : Tunnel)
    (container : Option String) : Except Err Unit × LocationState × List Effect :=
  match container with
  | some c =>
    if tunnel.container ≠ c then (.error (.valueError wrongContainerMsg), s, [])
    else destroyTunnelBody s tunnel
  | none => destroyTunnelBody s tunnel

/-- Location._from_proxy: look the tunnel up by the message uuid and forward
the data to it; an unknown uuid raises KeyError inside the try block, which
is caught and logged at debug level. -/
def from_proxy (s : LocationState) (msgUuid : String) :
    Except Err Unit × LocationState × List Effect :=
  match dictLookup msgUuid s.tunnels with
  | some _ => (.ok (), s, [Effect.forwardFromProxy msgUuid])
  | none => (.ok (), s, [Effect.logDebug fromProxyClosedMsg])

/-- Location._close_proxy: look the tunnel up by the message uuid and forward
the close to it; an unknown uuid raises KeyError inside the try block, which
is caught and logged at debug level. -/
def close_proxy (s : LocationState) (msgUuid : String) :
    Except Err Unit × LocationState × List Effect :=
  match dictLookup msgUuid s.tunnels with
  | some _ => (.ok (), s, [Effect.forwardCloseProxy msgUuid])
  | none => (.ok (), s, [Effect.logDebug closeProxyClosedMsg])

/-- The scan of Location.endpoint_for over the endpoints dict in insertion
order: the first endpoint whose domain is a character-level suffix of the
requested fqdn wins; when none matches, ValueError is raised. -/
def endpointForLoop (fqdn : String) : List (String × Endpoint) → Except Err Endpoint
  | [] => .error (.valueError (noEndpointMsg ++ fqdn))
  | (domain, ep) :: rest =>
    if endswith fqdn domain then .ok ep else endpointForLoop fqdn rest

/-- Location.endpoint_for on the session state. -/
def endpoint_for (s : LocationState) (fqdn : String) : Except Err Endpoint :=
  endpointForLoop fqdn s.endpoints

/-! ## Concrete objects for witnesses and counterexamples -/

/-- A user public key for the concrete states. -/
def userPk : String := "user-public-key"

/-- Uuid of the registered concrete tunnel. -/
def tun0Id : String := "tunnel-zero"

/-- A tunnel uuid absent from every concrete registry. -/
def tun1Id : String := "tunnel-unknown"

/-- Container owning the concrete tunnel. -/
def cont0Id : String := "container-zero"

/-- A container that owns nothing in the concrete states. -/
def cont1Id : String := "container-other"

/-- Uuid of the concrete volume. -/
def volZeroId : String := "volume-zero"

/-- The concrete volume. -/
def vol0 : Volume := { uuid := volZeroId, tag := none }

/-- The concrete registered tunnel. -/
def tunnel0 : Tunnel :=
  { uuid := tun0Id, container := cont0Id, port := 80, localport := 8080,
    bind := none }

/-- A live session holding one volume and one tunnel. -/
def s0 : LocationState :=
  { conn := true, user_pk := userPk, nodes := [], volumes := [vol0],
    tunnels := [(tun0Id, tunnel0)], endpoints := [], last_heartbeat := 0 }

/-! ## Dict lemmas -/

/-- Looking up the freshly assigned key finds the freshly assigned value. -/
theorem dictLookup_dictInsert_self (k : String) (v : β) (d : List (String × β)) :
    dictLookup k (dictInsert k v d) = some v := by
  rw [dictInsert]
  by_cases h : d.any (fun e => e.1 == k) = true
  · rw [if_pos h]
    induction d with
    | nil => simp at h
    | cons e rest ih =>
      by_cases he : e.1 = k
      · simp [dictLookup, he]
      · have h' : rest.any (fun e => e.1 == k) = true := by
          simpa [List.any_cons, he] using h
        simpa [dictLookup, he] using ih h'
  · rw [if_neg h]
    induction d with
    | nil => simp [dictLookup]
    | cons e rest ih =>
      have he : ¬ e.1 = k := by
        intro hk
        exact h (by simp [List.any_cons, hk])
      have h' : ¬ rest.any (fun e => e.1 == k) = true := by
        intro hk
        exact h (by simp [List.any_cons, hk])
      simpa [dictLookup, he] using ih h'

/-- Unfolding a dict lookup over a cons cell. -/
theorem dictLookup_cons (k : String) (e : String × β) (d : List (String × β)) :
    dictLookup k (e :: d) = if (e.1 == k) = true then some e.2 else dictLookup k d := by
  by_cases h : (e.1 == k) = true
  · rw [if_pos h]
    unfold dictLookup
    rw [List.find?_cons_of_pos (p := fun e => e.1 == k) d h]
    rfl
  · rw [if_neg h]
    unfold dictLookup
    rw [List.find?_cons_of_neg (p := fun e => e.1 == k) d h]

/-- Unfolding a dict deletion over a cons cell. -/
theorem dictDelete_cons (k : String) (e : String × β) (d : List (String × β)) :
    dictDelete k (e :: d) =
      if e.1 = k then dictDelete k d else e :: dictDelete k d := by
  by_cases h : e.1 = k
  · simp [dictDelete, List.filter_cons, h]
  · simp [dictDelete, List.filter_cons, h]

/-- Deleting a key removes its binding. -/
theorem dictLookup_dictDelete_self (k : String) (d : List (String × β)) :
    dictLookup k (dictDelete k d) = none := by
  induction d with
  | nil => rfl
  | cons e rest ih =>
    rw [dictDelete_cons]
    by_cases h : e.1 = k
    · rw [if_pos h]
      exact ih
    · rw [if_neg h, dictLookup_cons, if_neg (by simpa using h)]
      exact ih

/-- Deleting one key leaves every other binding untouched. -/
theorem dictLookup_dictDelete_ne (k k' : String) (d : List (String × β))
    (h : k' ≠ k) : dictLookup k' (dictDelete k d) = dictLookup k' d := by
  induction d with
  | nil => rfl
  | cons e rest ih =>
    rw [dictDelete_cons]
    by_cases he : e.1 = k
    · have hne : ¬ (e.1 == k') = true := by
        simp only [he, beq_iff_eq]
        exact fun hk => h hk.symm
      rw [if_pos he, dictLookup_cons, if_neg hne]
      exact ih
    · rw [if_neg he, dictLookup_cons, dictLookup_cons]
      by_cases he' : (e.1 == k') = true
      · rw [if_pos he', if_pos he']
      · rw [if_neg he', if_neg he']
        exact ih

/-! ## C7: proxy events for unknown tunnels are swallowed -/

/-- C7: a from_proxy or close_proxy push event whose tunnel uuid is not in
the tunnels registry is swallowed: the handler returns without error, the
session state (in particular the tunnels registry) is unchanged, and only a
debug line is logged; for a registered uuid the event is forwarded to that
tunnel. -/
theorem proxy_event_unknown_uuid_swallowed (s : LocationState) (u : String) :
    (dictLookup u s.tunnels = none →
      from_proxy s u = (.ok (), s, [Effect.logDebug fromProxyClosedMsg]) ∧
      close_proxy s u = (.ok (), s, [Effect.logDebug closeProxyClosedMsg])) ∧
    (∀ t, dictLookup u s.tunnels = some t →
      from_proxy s u = (.ok (), s, [Effect.forwardFromProxy u]) ∧
      close_proxy s u = (.ok (), s, [Effect.forwardCloseProxy u])) := by
  constructor
  · intro h
    exact ⟨by simp [from_proxy, h], by simp [close_proxy, h]⟩
  · intro t h
    exact ⟨by simp [from_proxy, h], by simp [close_proxy, h]⟩

/-- Witness for C7: the unknown uuid is swallowed and the registered uuid is
forwarded, on the concrete session state. -/
theorem proxy_event_unknown_uuid_swallowed_witness :
    (from_proxy s0 tun1Id = (.ok (), s0, [Effect.logDebug fromProxyClosedMsg]) ∧
     close_proxy s0 tun1Id = (.ok (), s0, [Effect.logDebug closeProxyClosedMsg])) ∧
    (from_proxy s0 tun0Id = (.ok (), s0, [Effect.forwardFromProxy tun0Id]) ∧
     close_proxy s0 tun0Id = (.ok (), s0, [Effect.forwardCloseProxy tun0Id])) :=
  ⟨(proxy_event_unknown_uuid_swallowed s0 tun1Id).1 (by decide),
   (proxy_event_unknown_uuid_swallowed s0 tun0Id).2 tunnel0 (by decide)⟩

/-! ## C8: at most one heartbeat per 60-second window -/

/-- Number of heartbeat keepalives among a list of effects. -/
def heartbeatCount (effects : List Effect) : Nat :=
  (effects.filter (fun e => e == Effect.send heartbeatCmd)).length

/-- When every tick of a run happens within 60 seconds of the stored
timestamp, no heartbeat is sent and the state is untouched. -/
theorem runHeartbeats_no_send (s : LocationState) (ticks : List ℚ)
    (h : ∀ t ∈ ticks, t - s.last_heartbeat < 60) :
    runHeartbeats s ticks = (s, []) := by
  induction ticks with
  | nil => rfl
  | cons t rest ih =>
    have ht := h t (List.mem_cons_self t rest)
    have ih2 := ih (fun x hx => h x (List.mem_cons_of_mem t hx))
    simp [runHeartbeats, heartbeat, if_pos ht, ih2]

/-- C8: each idle tick is a no-op unless 60 seconds have elapsed since the
previous heartbeat timestamp, in which case exactly one fire-and-forget
keepalive is sent and the timestamp resets to the current time; consequently
any sequence of idle ticks lying within one 60-second window sends at most
one heartbeat command. -/
theorem heartbeat_window_spec :
    (∀ (now : ℚ) (s : LocationState), now - s.last_heartbeat < 60 →
      heartbeat now s = (s, [])) ∧
    (∀ (now : ℚ) (s : LocationState), 60 ≤ now - s.last_heartbeat →
      heartbeat now s =
        ({ s with last_heartbeat := now }, [Effect.send heartbeatCmd])) ∧
    (∀ (T : ℚ) (s : LocationState) (ticks : List ℚ),
      (∀ t ∈ ticks, T ≤ t ∧ t < T + 60) →
      heartbeatCount (runHeartbeats s ticks).2 ≤ 1) := by
  refine ⟨?_, ?_, ?_⟩
  · intro now s h
    simp [heartbeat, if_pos h]
  · intro now s h
    have h' : ¬ now - s.last_heartbeat < 60 := not_lt.mpr h
    simp [heartbeat, if_neg h']
  · intro T s ticks hw
    induction ticks generalizing s with
    | nil => simp [runHeartbeats, heartbeatCount]
    | cons t rest ih =>
      by_cases h : t - s.last_heartbeat < 60
      · simp only [runHeartbeats, heartbeat, if_pos h]
        simpa using ih (s := s) (fun x hx => hw x (List.mem_cons_of_mem t hx))
      · simp only [runHeartbeats, heartbeat, if_neg h]
        have hrest : runHeartbeats { s with last_heartbeat := t } rest =
            ({ s with last_heartbeat := t }, []) := by
          apply runHeartbeats_no_send
          intro x hx
          have hxw := hw x (List.mem_cons_of_mem t hx)
          have htw := hw t (List.mem_cons_self t rest)
          simp only []
          have : x < T + 60 := hxw.2
          have : T ≤ t := htw.1
          linarith
        simp [hrest, heartbeatCount]

/-- Witness for C8: a below-threshold tick is a no-op, an above-threshold
tick sends and resets, and a concrete window of three ticks sends at most
one heartbeat. -/
theorem heartbeat_window_spec_witness :
    heartbeat 30 s0 = (s0, []) ∧
    heartbeat 100 s0 =
      ({ s0 with last_heartbeat := 100 }, [Effect.send heartbeatCmd]) ∧
    heartbeatCount (runHeartbeats s0 [70, 80, 129]).2 ≤ 1 := by
  refine ⟨?_, ?_, ?_⟩
  · exact heartbeat_window_spec.1 30 s0 (by norm_num [s0])
  · exact heartbeat_window_spec.2.1 100 s0 (by norm_num [s0])
  · refine heartbeat_window_spec.2.2 70 s0 [70, 80, 129] ?_
    intro t ht
    fin_cases ht <;> norm_num

/-! ## C9: endpoint_for is first-registered-wins suffix matching -/

/-- endswith holds exactly when the second string is a character-level
closing segment of the first. -/
theorem endswith_iff (s t : String) :
    endswith s t = true ↔ ∃ r : String, r ++ t = s := by
  unfold endswith
  rw [ List.isPrefixOf_iff_prefix, List.reverse_prefix]
  constructor
  · intro h
    obtain ⟨r, hr⟩ := h
    exact ⟨String.mk r, String.ext (by simpa using hr)⟩
  · rintro ⟨r, rfl⟩
    exact ⟨r.data, by simp⟩

/-- The endpoint scan raises ValueError when no registered domain matches. -/
theorem endpointForLoop_no_match (fqdn : String) (eps : List (String × Endpoint))
    (h : ∀ p ∈ eps, endswith fqdn p.1 = false) :
    endpointForLoop fqdn eps = .error (.valueError (noEndpointMsg ++ fqdn)) := by
  induction eps with
  | nil => rfl
  | cons p rest ih =>
    obtain ⟨d, ep⟩ := p
    have hd := h (d, ep) (List.mem_cons_self _ _)
    simp only [endpointForLoop, hd, Bool.false_eq_true, if_false]
    exact ih (fun q hq => h q (List.mem_cons_of_mem _ hq))

/-- The endpoint scan returns the first entry whose domain matches,
regardless of any later (possibly longer) match. -/
theorem endpointForLoop_first_match (fqdn d : String) (e : Endpoint)
    (l1 l2 : List (String × Endpoint))
    (h1 : ∀ p ∈ l1, endswith fqdn p.1 = false)
    (hd : endswith fqdn d = true) :
    endpointForLoop fqdn (l1 ++ (d, e) :: l2) = .ok e := by
  induction l1 with
  | nil => simp [endpointForLoop, hd]
  | cons p rest ih =>
    obtain ⟨d', ep'⟩ := p
    have hp := h1 (d', ep') (List.mem_cons_self _ _)
    simp only [List.cons_append, endpointForLoop, hp, Bool.false_eq_true, if_false]
    exact ih (fun q hq => h1 q (List.mem_cons_of_mem _ hq))

/-- The registered domain my.com. -/
def myComStr : String := "my.com"

/-- The registered domain b.my.com. -/
def bMyComStr : String := "b.my.com"

/-- The requested fqdn a.b.my.com. -/
def fqdnABMy : String := "a.b.my.com"

/-- An fqdn no registered domain matches. -/
def fqdnOther : String := "example.org"

/-- The leading segment witnessing that my.com closes a.b.my.com. -/
def abDotStr : String := "a.b."

/-- The endpoint registered for my.com. -/
def epMy : Endpoint := { domain := myComStr, clusters := [] }

/-- The endpoint registered for b.my.com. -/
def epBMy : Endpoint := { domain := bMyComStr, clusters := [] }

/-- A session with only my.com registered. -/
def sMyOnly : LocationState := { s0 with endpoints := [(myComStr, epMy)] }

/-- A session with my.com registered before b.my.com. -/
def sMyFirst : LocationState :=
  { s0 with endpoints := [(myComStr, epMy), (bMyComStr, epBMy)] }

/-- A session with b.my.com registered before my.com. -/
def sBMyFirst : LocationState :=
  { s0 with endpoints := [(bMyComStr, epBMy), (myComStr, epMy)] }

/-- C9: endpoint_for returns the first-registered endpoint whose domain is a
character-level closing segment of the requested fqdn (first-registered wins
among overlapping domains, with no longest-match preference) and raises the
no-endpoint ValueError when no registered domain matches; concretely,
a.b.my.com is served by the my.com endpoint when only it is registered, and
when my.com and b.my.com are both registered the first-registered of the two
wins regardless of which is the longer match. -/
theorem endpoint_for_spec :
    (∀ (s : LocationState) (fqdn d : String) (e : Endpoint)
        (l1 l2 : List (String × Endpoint)),
      s.endpoints = l1 ++ (d, e) :: l2 →
      (∀ p ∈ l1, ¬ ∃ r : String, r ++ p.1 = fqdn) →
      (∃ r : String, r ++ d = fqdn) →
      endpoint_for s fqdn = .ok e) ∧
    (∀ (s : LocationState) (fqdn : String),
      (∀ p ∈ s.endpoints, ¬ ∃ r : String, r ++ p.1 = fqdn) →
      endpoint_for s fqdn = .error (.valueError (noEndpointMsg ++ fqdn))) ∧
    endpoint_for sMyOnly fqdnABMy = .ok epMy ∧
    endpoint_for sMyFirst fqdnABMy = .ok epMy ∧
    endpoint_for sBMyFirst fqdnABMy = .ok epBMy := by
  refine ⟨?_, ?_, by decide, by decide, by decide⟩
  · intro s fqdn d e l1 l2 hs h1 hd
    unfold endpoint_for
    rw [hs]
    apply endpointForLoop_first_match
    · intro p hp
      exact Bool.eq_false_iff.mpr
        (fun htrue => (h1 p hp) ((endswith_iff _ _).mp htrue))
    · exact (endswith_iff fqdn d).mpr hd
  · intro s fqdn h
    unfold endpoint_for
    apply endpointForLoop_no_match
    intro p hp
    exact Bool.eq_false_iff.mpr
      (fun htrue => (h p hp) ((endswith_iff _ _).mp htrue))

/-- Witness for C9: the first-match rule applied to the concrete two-domain
registry, and the ValueError on an fqdn no registered domain closes. -/
theorem endpoint_for_spec_witness :
    endpoint_for sMyFirst fqdnABMy = .ok epMy ∧
    endpoint_for sMyOnly fqdnOther =
      .error (.valueError (noEndpointMsg ++ fqdnOther)) := by
  constructor
  · exact endpoint_for_spec.1 sMyFirst fqdnABMy myComStr epMy []
      [(bMyComStr, epBMy)] (by rfl)
      (fun p hp => absurd hp (List.not_mem_nil p)) ⟨abDotStr, by decide⟩
  · refine endpoint_for_spec.2.1 sMyOnly fqdnOther ?_
    intro p hp hex
    have hp' : p = (myComStr, epMy) := by
      simpa [sMyOnly, s0] using hp
    rw [hp'] at hex
    have hmatch : endswith fqdnOther myComStr = true := (endswith_iff _ _).mpr hex
    exact absurd hmatch (by decide)

/-! ## C5: destroy_volume and the volume registry -/

/-- C5: for a volume unknown to the session's registry, destroy_volume
leaves the registry unmutated and (when the remote acknowledges the blocking
command) fails with the NotFound-style error of the registry removal; for a
volume known to the session it issues the blocking destroy_volume command
and, on success, removes exactly that volume from the registry: that
volume's multiplicity drops by one and every other volume's multiplicity is
untouched. -/
theorem destroy_volume_spec (s : LocationState) (v : Volume) :
    (v ∉ s.volumes → ∀ remoteOk,
      (destroy_volume s v remoteOk).2.1 = s ∧
      (remoteOk = true →
        (destroy_volume s v remoteOk).1 = .error (.notFound volumeUnknownMsg))) ∧
    (v ∈ s.volumes →
      destroy_volume s v true =
        (.ok (), { s with volumes := s.volumes.erase v },
          [Effect.sendBlocking destroyVolumeCmd v.uuid]) ∧
      (s.volumes.erase v).count v = s.volumes.count v - 1 ∧
      ∀ w : Volume, w ≠ v → (s.volumes.erase v).count w = s.volumes.count w) := by
  constructor
  · intro hv remoteOk
    match remoteOk with
    | false => exact ⟨rfl, fun h => by cases h⟩
    | true =>
      refine ⟨?_, fun _ => ?_⟩ <;>
        simp [destroy_volume, hv]
  · intro hv
    refine ⟨by simp [destroy_volume, hv], List.count_erase_self v s.volumes, ?_⟩
    intro w hw
    exact List.count_erase_of_ne hw s.volumes

/-- Witness for C5: on the concrete session, destroying an unknown volume
fails NotFound without touching the registry, and destroying the known
volume removes exactly it. -/
theorem destroy_volume_spec_witness :
    ((destroy_volume s0 { uuid := tun1Id, tag := none } true).2.1 = s0 ∧
      (destroy_volume s0 { uuid := tun1Id, tag := none } true).1 =
        .error (.notFound volumeUnknownMsg)) ∧
    destroy_volume s0 vol0 true =
      (.ok (), { s0 with volumes := s0.volumes.erase vol0 },
        [Effect.sendBlocking destroyVolumeCmd vol0.uuid]) := by
  constructor
  · have h := (destroy_volume_spec s0 { uuid := tun1Id, tag := none }).1
      (by decide) true
    exact ⟨h.1, h.2 rfl⟩
  · exact ((destroy_volume_spec s0 vol0).2 (by decide)).1

/-! ## C6: the container guard of _destroy_tunnel -/

/-- C6: for a tunnel present in the registry and a supplied container guard,
destruction with a non-owning guard raises ValueError before any destroy
side effect and leaves the session state (in particular the tunnels
registry) unchanged; destruction with the owning guard emits exactly one
destroy effect, removes the tunnel's uuid from the registry and leaves
every other registry entry in place. -/
theorem destroy_tunnel_guard_spec (s : LocationState) (t : Tunnel) (g : String)
    (hreg : dictLookup t.uuid s.tunnels = some t) :
    (t.container ≠ g →
      destroy_tunnel s t (some g) =
        (.error (.valueError wrongContainerMsg), s, [])) ∧
    (t.container = g →
      destroy_tunnel s t (some g) =
        (.ok (), { s with tunnels := dictDelete t.uuid s.tunnels },
          [Effect.tunnelDestroyed t.uuid]) ∧
      dictLookup t.uuid (dictDelete t.uuid s.tunnels) = none ∧
      ∀ k, k ≠ t.uuid →
        dictLookup k (dictDelete t.uuid s.tunnels) = dictLookup k s.tunnels) := by
  constructor
  · intro hne
    simp [destroy_tunnel, hne]
  · intro heq
    refine ⟨?_, dictLookup_dictDelete_self t.uuid s.tunnels,
      fun k hk => dictLookup_dictDelete_ne t.uuid k s.tunnels hk⟩
    simp [destroy_tunnel, heq, destroyTunnelBody, hreg]

/-- Witness for C6: on the concrete session, a wrong guard leaves the
registry unchanged and the owning guard removes the tunnel. -/
theorem destroy_tunnel_guard_spec_witness :
    destroy_tunnel s0 tunnel0 (some cont1Id) =
      (.error (.valueError wrongContainerMsg), s0, []) ∧
    destroy_tunnel s0 tunnel0 (some cont0Id) =
      (.ok (), { s0 with tunnels := dictDelete tun0Id s0.tunnels },
        [Effect.tunnelDestroyed tun0Id]) := by
  have h := destroy_tunnel_guard_spec s0 tunnel0 cont1Id (by decide)
  have h2 := destroy_tunnel_guard_spec s0 tunnel0 cont0Id (by decide)
  exact ⟨h.1 (by decide), (h2.2 (by decide)).1⟩

/-! ## C3: disconnect teardown -/

/-- Counterexample to C3 as stated: after disconnecting a live session
holding one volume, the volumes registry is not empty — disconnect clears
nodes, tunnels and endpoints but never clears volumes. -/
theorem disconnect_volumes_not_cleared_counterexample :
    (disconnect s0).1.volumes ≠ [] := by decide

/-- C3 (amended): disconnect is idempotent — a second call is a pure no-op
with no sends and no mutations because the connection handle is already
cleared, so the end state after two calls equals the end state after one;
on a live session one call empties the nodes, tunnels and endpoints
registries and clears the connection handle, but leaves the volumes
registry exactly as it was. -/
theorem disconnect_idempotent (s : LocationState) :
    (s.conn = true →
      (disconnect s).1.nodes = [] ∧ (disconnect s).1.tunnels = [] ∧
      (disconnect s).1.endpoints = [] ∧ (disconnect s).1.conn = false ∧
      (disconnect s).1.volumes = s.volumes) ∧
    disconnect (disconnect s).1 = ((disconnect s).1, []) := by
  by_cases h : s.conn = false
  · constructor
    · intro h2
      rw [h2] at h
      cases h
    · simp [disconnect, h]
  · have h' : s.conn = true := by simpa using h
    constructor
    · intro _
      simp [disconnect, h']
    · simp [disconnect, h']

/-- Witness for C3 (amended) at the concrete live session holding one
volume, one tunnel and no endpoints. -/
theorem disconnect_idempotent_witness :
    ((disconnect s0).1.nodes = [] ∧ (disconnect s0).1.tunnels = [] ∧
      (disconnect s0).1.endpoints = [] ∧ (disconnect s0).1.conn = false ∧
      (disconnect s0).1.volumes = s0.volumes) ∧
    disconnect (disconnect s0).1 = ((disconnect s0).1, []) :=
  ⟨(disconnect_idempotent s0).1 (by decide), (disconnect_idempotent s0).2⟩

/-! ## C4: tunnel registration precedes connection -/

/-- The error message of the failing tunnel connection in the concrete
counterexample. -/
def connectFailMsg : String := "connection refused"

/-- Counterexample to C4 as stated: when establishing the connection fails,
the error is propagated but the tunnel is NOT unregistered — the freshly
registered uuid is still bound in the tunnels registry afterwards. -/
theorem tunnel_onto_no_cleanup_counterexample :
    (tunnel_onto s0 cont0Id 80 8080 none tun1Id
        (.error (.valueError connectFailMsg))).1 =
      .error (.valueError connectFailMsg) ∧
    dictLookup tun1Id
        (tunnel_onto s0 cont0Id 80 8080 none tun1Id
          (.error (.valueError connectFailMsg))).2.1.tunnels ≠ none := by
  decide

/-- C4 (amended): the tunnel object is registered in the tunnels registry
under its freshly allocated uuid strictly before the underlying network
connection is attempted — in the execution trace the registration event
(position one) precedes the connect attempt (position two), so a proxy
event for that uuid never finds the tunnel unregistered — and if
establishing the connection fails the error is propagated to the caller
while the tunnel remains registered: the source performs no cleanup on the
failure path. -/
theorem tunnel_onto_ordering (s : LocationState) (container : String)
    (port localport : Nat) (bind : Option String) (uuid : String)
    (res : Except Err Unit) :
    (tunnel_onto s container port localport bind uuid res).2.2 =
      [TunnelEvent.waitReady container, TunnelEvent.registered uuid,
        TunnelEvent.connectAttempt uuid] ∧
    dictLookup uuid
        (tunnel_onto s container port localport bind uuid res).2.1.tunnels =
      some (Tunnel.mk uuid container port localport bind) ∧
    (∀ e, res = .error e →
      (tunnel_onto s container port localport bind uuid res).1 = .error e) := by
  refine ⟨?_, ?_, ?_⟩
  · cases res <;> rfl
  · cases res <;> exact dictLookup_dictInsert_self uuid _ s.tunnels
  · intro e he
    rw [he]
    rfl

/-- Witness for C4 (amended): on the concrete failing connection the trace
shows registration before the connect attempt and the error comes back to
the caller. -/
theorem tunnel_onto_ordering_witness :
    (tunnel_onto s0 cont0Id 80 8080 none tun1Id
        (.error (.valueError connectFailMsg))).2.2 =
      [TunnelEvent.waitReady cont0Id, TunnelEvent.registered tun1Id,
        TunnelEvent.connectAttempt tun1Id] ∧
    (tunnel_onto s0 cont0Id 80 8080 none tun1Id
        (.error (.valueError connectFailMsg))).1 =
      .error (.valueError connectFailMsg) := by
  have h := tunnel_onto_ordering s0 cont0Id 80 8080 none tun1Id
    (.error (.valueError connectFailMsg))
  exact ⟨h.1, h.2.2 (.valueError connectFailMsg) rfl⟩

/-! ## C2: ranked_nodes sorts descending, stably -/

/-- The descending stable sort at the heart of ranked_nodes: it permutes its
input, orders it by the key descending, and preserves the original relative
order of equal-key elements — stated as invariance of the sublist selected
by each key value. -/
theorem mergeSort_desc_spec (key : Node → Int) (l : List Node) :
    (l.mergeSort (fun a b => decide (key b ≤ key a))).Perm l ∧
    (l.mergeSort (fun a b => decide (key b ≤ key a))).Pairwise
      (fun a b => key b ≤ key a) ∧
    ∀ v : Int,
      (l.mergeSort (fun a b => decide (key b ≤ key a))).filter
          (fun n => key n == v) =
        l.filter (fun n => key n == v) := by
  have trans : ∀ (a b c : Node), decide (key b ≤ key a) = true →
      decide (key c ≤ key b) = true → decide (key c ≤ key a) = true := by
    intro a b c hab hbc
    rw [decide_eq_true_eq] at *
    exact le_trans hbc hab
  have total : ∀ (a b : Node),
      (decide (key b ≤ key a) || decide (key a ≤ key b)) = true := by
    intro a b
    rw [Bool.or_eq_true, decide_eq_true_eq, decide_eq_true_eq]
    exact le_total (key b) (key a)
  refine ⟨List.mergeSort_perm l _, ?_, ?_⟩
  · have h := List.sorted_mergeSort trans total l
    exact h.imp (fun hab => by simpa using hab)
  · intro v
    have hfsub : List.Sublist (l.filter (fun n => key n == v)) l :=
      List.filter_sublist l
    have hpw : (l.filter (fun n => key n == v)).Pairwise
        (fun a b => decide (key b ≤ key a) = true) := by
      apply List.pairwise_of_forall_mem_list
      intro a ha b hb
      have hka : key a = v := by simpa using (List.mem_filter.mp ha).2
      have hkb : key b = v := by simpa using (List.mem_filter.mp hb).2
      rw [decide_eq_true_eq, hka, hkb]
    have hsub : List.Sublist (l.filter (fun n => key n == v))
        (l.mergeSort (fun a b => decide (key b ≤ key a))) :=
      List.sublist_mergeSort trans total hpw hfsub
    have hsub2 : List.Sublist (l.filter (fun n => key n == v))
        ((l.mergeSort (fun a b => decide (key b ≤ key a))).filter
          (fun n => key n == v)) := by
      have h2 := hsub.filter (fun n => key n == v)
      simpa [List.filter_filter] using h2
    have hperm : ((l.mergeSort (fun a b => decide (key b ≤ key a))).filter
        (fun n => key n == v)).Perm (l.filter (fun n => key n == v)) :=
      (List.mergeSort_perm l _).filter _
    exact (hsub2.eq_of_length hperm.length_eq.symm).symm

/-- C2: for a non-empty node registry, ranked_nodes returns the registry's
nodes sorted descending by the requested stat (cpu or memory), equal-stat
nodes retaining their original relative arrival order (Python's sorted is
stable under reverse=True); for an empty registry it raises the no-nodes
ValueError — the error the spec labels NotFound-style — rather than
returning a list. -/
theorem ranked_nodes_spec (s : LocationState) (bias : RankBias) :
    (s.nodes = [] → ranked_nodes s bias = .error (.valueError noNodesMsg)) ∧
    (s.nodes ≠ [] → ∃ l, ranked_nodes s bias = .ok l ∧
      l.Perm (s.nodes.map (fun e => e.2)) ∧
      l.Pairwise (fun a b => statKey bias b ≤ statKey bias a) ∧
      ∀ v : Int, l.filter (fun n => statKey bias n == v) =
        (s.nodes.map (fun e => e.2)).filter (fun n => statKey bias n == v)) := by
  constructor
  · intro h
    cases bias <;> simp [ranked_nodes, h]
  · intro h
    have hlen : ¬ (s.nodes.map (fun e => e.2)).length = 0 := by
      simpa using h
    cases bias
    · refine ⟨(s.nodes.map (fun e => e.2)).mergeSort
          (fun a b => decide (b.cpu ≤ a.cpu)), ?_, ?_, ?_, ?_⟩
      · simp [ranked_nodes, hlen, h]
      · exact (mergeSort_desc_spec (fun n => n.cpu) _).1
      · exact (mergeSort_desc_spec (fun n => n.cpu) _).2.1
      · exact (mergeSort_desc_spec (fun n => n.cpu) _).2.2
    · refine ⟨(s.nodes.map (fun e => e.2)).mergeSort
          (fun a b => decide (b.memory ≤ a.memory)), ?_, ?_, ?_, ?_⟩
      · simp [ranked_nodes, hlen, h]
      · exact (mergeSort_desc_spec (fun n => n.memory) _).1
      · exact (mergeSort_desc_spec (fun n => n.memory) _).2.1
      · exact (mergeSort_desc_spec (fun n => n.memory) _).2.2

/-- Identity of the first concrete node. -/
def nodeKeyA : String := "node-a"

/-- Identity of the second concrete node. -/
def nodeKeyB : String := "node-b"

/-- A concrete node with middling stats. -/
def nodeA : Node := { id := nodeKeyA, cpu := 2, memory := 5 }

/-- A concrete node with larger stats. -/
def nodeB : Node := { id := nodeKeyB, cpu := 7, memory := 9 }

/-- A session whose registry holds the two concrete nodes. -/
def s2 : LocationState := { s0 with nodes := [(nodeKeyA, nodeA), (nodeKeyB, nodeB)] }

/-- Witness for C2: the empty registry fails with the no-nodes error, and the
two-node registry yields a descending, stable, permuted ranking. -/
theorem ranked_nodes_spec_witness :
    ranked_nodes s0 RankBias.memory = .error (.valueError noNodesMsg) ∧
    ∃ l, ranked_nodes s2 RankBias.memory = .ok l ∧
      l.Perm (s2.nodes.map (fun e => e.2)) ∧
      l.Pairwise (fun a b => statKey RankBias.memory b ≤ statKey RankBias.memory a) ∧
      ∀ v : Int, l.filter (fun n => statKey RankBias.memory n == v) =
        (s2.nodes.map (fun e => e.2)).filter
          (fun n => statKey RankBias.memory n == v) :=
  ⟨(ranked_nodes_spec s0 RankBias.memory).1 rfl,
   (ranked_nodes_spec s2 RankBias.memory).2 (by decide)⟩

end Tfnz
